import Mathlib

/-!
Verification of the parallel block-processing engine in
`structure_tensor/multiprocessing.py` (368 lines, the whole repository).

The Python module is shallowly embedded below.  Shapes are lists of
naturals, dtypes a small inductive, numpy arrays and memory maps are
descriptors carrying shape and dtype, and the entry point
`parallel_structure_tensor_analysis` is a pure function returning the
list of shared-memory allocations it performed together with either an
error (a raised `ValueError` / failed `assert`) or the list of output
array handles it returns, in order.
-/

namespace StructureTensor

/-- Element types (numpy dtypes) that appear in the analysis. -/
inductive Dty
  | float32
  | float64
  | uint8
  | int16
  deriving DecidableEq, Repr

/-- Descriptor of a `numpy.memmap`: file path, declared shape, declared
dtype and byte offset (multiprocessing.py lines 33-42). -/
structure MemMap where
  path : String
  shape : List Nat
  dtype : Dty
  offset : Nat
  deriving DecidableEq, Repr

/-- The input volume: either an in-memory `numpy.ndarray` (copied into a
fresh shared-memory segment, lines 116-128) or a `numpy.memmap`
(lines 103-115). -/
inductive Volume
  | memmap (m : MemMap)
  | ndarray (shape : List Nat) (dtype : Dty)
  deriving DecidableEq, Repr

/-- Shape of the volume, as `volume.shape` in the Python code. -/
def Volume.shape : Volume → List Nat
  | .memmap m => m.shape
  | .ndarray s _ => s

/-- One of the three output-request parameters of
`parallel_structure_tensor_analysis` (lines 88-90): `None` (skip), a
dtype (allocate fresh), or an existing `numpy.memmap` (adopt). -/
inductive OutputRequest
  | none
  | dtype (d : Dty)
  | memmap (m : MemMap)
  deriving DecidableEq, Repr

/-- Python `output is None` used in the entry check (line 99). -/
def isNoneReq : OutputRequest → Bool
  | .none => true
  | _ => false

/-- An output array handle handed back to the caller: either a freshly
allocated shared-memory array of the canonical shape (lines 151-161 and
analogues) or the caller-supplied memmap adopted as-is (lines 141-150
and analogues). -/
inductive OutArray
  | fresh (shape : List Nat) (dtype : Dty)
  | adopted (m : MemMap)
  deriving DecidableEq, Repr

/-- Shape of an output array handle. -/
def OutArray.shape : OutArray → List Nat
  | .fresh s _ => s
  | .adopted m => m.shape

/-- Dtype of an output array handle. -/
def OutArray.dtype : OutArray → Dty
  | .fresh _ d => d
  | .adopted m => m.dtype

/-- A shared-memory allocation performed by `_create_raw_array`
(lines 77-81): the shape and dtype of the buffer allocated. -/
structure AllocEvent where
  shape : List Nat
  dtype : Dty
  deriving DecidableEq, Repr

/-- Errors the entry point can raise: a `ValueError` with its message, or
a failed `assert` statement (lines 163 and 198). -/
inductive PError
  | valueError (msg : String)
  | assertionError
  deriving DecidableEq, Repr

/-- Provisioning of one output (the code pattern repeated at
lines 134-161, 171-196 and 202-227): `None` yields nothing; a memmap is
adopted with its own shape and dtype; a dtype triggers a fresh
shared-memory allocation with the canonical shape.  Returns the
allocation events, the caller-facing array handle, and whether worker
arguments were produced. -/
def provisionOutput (canonicalShape : List Nat) (req : OutputRequest) :
    List AllocEvent × Option OutArray :=
  match req with
  | .none => ([], Option.none)
  | .memmap m => ([], Option.some (.adopted m))
  | .dtype d => ([⟨canonicalShape, d⟩], Option.some (.fresh canonicalShape d))

/-- The `assert ... is None or shape == ...` statements at lines 163
and 198: holds when no array was produced or its shape equals the
canonical shape. -/
def shapeAssertHolds (canonicalShape : List Nat) : Option OutArray → Bool
  | Option.none => true
  | Option.some a => decide (canonicalShape = a.shape)

/-- ASCII lowercasing of one character, as Python `str.lower` acts on the
device strings of this module. -/
def charLower (c : Char) : Char :=
  if c.isUpper then c.toLower else c

/-- Python `d.lower()` on a device string, as a list of characters. -/
def strLower (s : String) : List Char :=
  s.data.map charLower

/-- Whether `pre` is an initial segment of `s`. -/
def startsWithChars : List Char → List Char → Bool
  | _, [] => true
  | [], _ :: _ => false
  | c :: cs, d :: ds => c = d && startsWithChars cs ds

/-- Python substring containment `sub in s` on character lists. -/
def containsSub (sub : List Char) : List Char → Bool
  | [] => sub.isEmpty
  | c :: cs => startsWithChars (c :: cs) sub || containsSub sub cs

/-- The device acceptance test the code actually performs (line 233):
`d.lower() == "cpu" or "cuda:" in d.lower()`. -/
def deviceAccepted (d : String) : Bool :=
  decide (strLower d = "cpu".data) || containsSub "cuda:".data (strLower d)

/-- The strict device pattern stated by the specification: `cpu` or
`cuda:<non-negative integer>`, case-insensitive.  This is the
specification's wording, kept separate from `deviceAccepted`, which is
what the code checks. -/
def matchesDevicePattern (d : String) : Bool :=
  let l := strLower d
  decide (l = "cpu".data) ||
    (startsWithChars l "cuda:".data &&
      decide (5 < l.length) &&
      (l.drop 5).all Char.isDigit)

/-- Python `[a]` when the handle exists, `[]` otherwise, used when the
`output` list is assembled at lines 271-280. -/
def optToList : Option OutArray → List OutArray
  | Option.some a => [a]
  | Option.none => []

/-- Number of requested (non-`None`) outputs among a list of requests. -/
def requestCount (rs : List OutputRequest) : Nat :=
  (rs.filter (fun r => !isNoneReq r)).length

/-- The default value of the `eigenvectors` parameter (line 88):
`np.float32`, a fresh-allocation request. -/
def defaultEigenvectors : OutputRequest := .dtype .float32

/-- The default value of the `eigenvalues` parameter (line 89):
`np.float32`, a fresh-allocation request. -/
def defaultEigenvalues : OutputRequest := .dtype .float32

/-- The default value of the `structure_tensor` parameter (line 90):
`None`, skip. -/
def defaultStructureTensor : OutputRequest := .none

/-- The shared-memory allocations performed while handling the input
volume (lines 102-132): an in-memory ndarray is copied into a fresh
shared-memory buffer of the same shape and dtype (line 122); a memmap
is passed by descriptor with no allocation. -/
def volumeAllocs : Volume → List AllocEvent
  | .memmap _ => []
  | .ndarray s d => [⟨s, d⟩]

/-- Shallow embedding of `parallel_structure_tensor_analysis`
(lines 84-289).  In source order: the at-least-one-output check
(99-100), volume handling (102-132, an ndarray is copied into a fresh
shared-memory allocation), eigenvector provisioning and its shape
assert (134-163), eigenvalue provisioning with the
`include_all_eigenvalues`-dependent canonical shape and its shape
assert (165-198), structure-tensor provisioning with no assert
(200-227), the device check (229-236), and output assembly and return
(271-289).  The worker pool itself (lines 255-269) only writes array
contents and reports progress; it is modelled separately by
`collectCompletions` and `doWorkWrites`.  The result pairs the list of
shared-memory allocations performed with the returned handles or the
error raised. -/
def parallel_structure_tensor_analysis
    (cpuCount : Nat)
    (volume : Volume)
    (eigenvectors eigenvalues structure_tensor : OutputRequest)
    (include_all_eigenvalues : Bool)
    (devices : Option (List String)) :
    List AllocEvent × Except PError (List OutArray) :=
  if [eigenvectors, eigenvalues, structure_tensor].all isNoneReq then
    ([], .error (.valueError "At least one output must be specified."))
  else
    let volAllocs := volumeAllocs volume
    let eigenvectors_shape := 3 :: volume.shape
    let pvec := provisionOutput eigenvectors_shape eigenvectors
    if !shapeAssertHolds eigenvectors_shape pvec.2 then
      (volAllocs ++ pvec.1, .error .assertionError)
    else
      let eigenvalues_shape :=
        if include_all_eigenvalues then 3 :: 3 :: volume.shape
        else 3 :: volume.shape
      let pval := provisionOutput eigenvalues_shape eigenvalues
      if !shapeAssertHolds eigenvalues_shape pval.2 then
        (volAllocs ++ pvec.1 ++ pval.1, .error .assertionError)
      else
        let structure_tensor_shape := 6 :: volume.shape
        let pst := provisionOutput structure_tensor_shape structure_tensor
        let allocs := volAllocs ++ pvec.1 ++ pval.1 ++ pst.1
        let devs :=
          match devices with
          | Option.none => List.replicate cpuCount "cpu"
          | Option.some ds => ds
        if devices.isSome ∧ ¬ devs.all deviceAccepted = true then
          (allocs,
            .error (.valueError
              "Invalid devices. Should be a list of cpu or cuda:X, where X is the CUDA device number."))
        else
          let output := optToList pst.2 ++ optToList pvec.2 ++ optToList pval.2
          if output.length = 1 ∨ output.length = 2 ∨ output.length = 3 then
            (allocs, .ok output)
          else
            (allocs, .error (.valueError "No output generated."))

/-- State of the collection loop at lines 256-269: the completion
counter `count`, the accumulated `results` list, and the progress
callback invocations `(count, block_count)` made so far. -/
structure CollectState where
  count : Nat
  results : List Nat
  calls : List (Nat × Nat)
  deriving DecidableEq, Repr

/-- One iteration of the collection loop (lines 265-269): increment the
counter, append the result, and when a progress callback was supplied
invoke it with `(count, block_count)`. -/
def collectStep (hasCallback : Bool) (blockCount : Nat)
    (st : CollectState) (res : Nat) : CollectState :=
  let c := st.count + 1
  { count := c
    results := st.results ++ [res]
    calls := if hasCallback then st.calls ++ [(c, blockCount)] else st.calls }

/-- The collection loop of the orchestrator (lines 259-269): fold
`collectStep` over the completions yielded by `imap_unordered` (block
ids, in arbitrary arrival order), starting from the zero counter. -/
def collectCompletions (hasCallback : Bool) (blockCount : Nat)
    (completions : List Nat) : CollectState :=
  completions.foldl (collectStep hasCallback blockCount) ⟨0, [], []⟩

/-- Eigenvalue (or eigenvector) field of one block, as a function from
leading-axis index and voxel index to a value; `len` is the length of
the leading axis (3, or 3×3 flattened when all eigenvalues are
requested). -/
def flipAxis0 (len : Nat) (val : Nat → Nat → Int) : Nat → Nat → Int :=
  fun i v => val (len - 1 - i) v

/-- Which outputs a worker's data sources hold (the `_DataSources`
fields that are not `None`, lines 45-51). -/
structure DataSourcesModel where
  hasStructureTensor : Bool
  hasEigenvectors : Bool
  hasEigenvalues : Bool
  deriving DecidableEq, Repr

/-- A write a worker performs into an output backing store
(`util.insert_block` calls at lines 353, 360 and 367). -/
inductive WriteAction
  | tensor (field : Nat → Nat → Int)
  | vectors (field : Nat → Nat → Int)
  | values (field : Nat → Nat → Int)

/-- The writes performed by `_do_work` for one block (lines 351-367):
the structure tensor field `S` when requested, the eigenvector field
`vec` when requested, and — when eigenvalues are requested — the
eigenvalue field `val` flipped along its leading axis
(`lib.flip(val, axis=0)`, line 364) so the largest value comes first. -/
def doWorkWrites (ds : DataSourcesModel) (valLen : Nat)
    (S vec val : Nat → Nat → Int) : List WriteAction :=
  (if ds.hasStructureTensor then [.tensor S] else []) ++
    (if ds.hasEigenvectors then [.vectors vec] else []) ++
    (if ds.hasEigenvalues then [.values (flipAxis0 valLen val)] else [])

/-- Modelled from the spec: the compute kernel `eig_special_3d` (module
`st3d`, not under src/) returns eigenvalues in ascending order along
the leading axis — "the kernel returns ascending order". -/
def kernelAscending (len : Nat) (val : Nat → Nat → Int) : Prop :=
  ∀ i j v, i ≤ j → j < len → val i v ≤ val j v

/-- A field is non-increasing along its leading axis of length `len`. -/
def nonIncreasingAxis0 (len : Nat) (w : Nat → Nat → Int) : Prop :=
  ∀ i j v, i ≤ j → j < len → w j v ≤ w i v

/-! ### Helper lemmas -/

/-- The device string `cpu` passes the code's device check. -/
theorem deviceAccepted_cpu : deviceAccepted "cpu" = true := by decide

/-- A string with `pre` as an initial segment contains it as a
substring. -/
theorem containsSub_of_startsWith (sub l : List Char)
    (h : startsWithChars l sub = true) : containsSub sub l = true := by
  cases l with
  | nil =>
      cases sub with
      | nil => rfl
      | cons d ds => simp [startsWithChars] at h
  | cons c cs => simp [containsSub, h]

/-- Every device string matching the specification's strict pattern
passes the weaker check the code performs. -/
theorem deviceAccepted_of_matchesDevicePattern (d : String)
    (h : matchesDevicePattern d = true) : deviceAccepted d = true := by
  unfold matchesDevicePattern at h
  unfold deviceAccepted
  simp only [Bool.or_eq_true, decide_eq_true_eq, Bool.and_eq_true] at h ⊢
  rcases h with h | ⟨⟨h1, _⟩, _⟩
  · exact Or.inl h
  · exact Or.inr (containsSub_of_startsWith _ _ h1)

/-- Provisioning an output yields an array handle exactly when the
output was requested. -/
theorem provisionOutput_isSome (s : List Nat) (r : OutputRequest) :
    (provisionOutput s r).2.isSome = !isNoneReq r := by
  cases r <;> rfl

/-- Length of the singleton-or-empty list used in output assembly. -/
theorem optToList_length (o : Option OutArray) :
    (optToList o).length = if o.isSome then 1 else 0 := by
  cases o <;> rfl

/-! ### Claims -/

/-- Claim C5: if none of the three outputs (structure tensor,
eigenvectors, eigenvalues) is requested, the call fails with a
`ValueError` (the module's invalid-argument error) raised immediately,
before any allocation takes place: the allocation list is empty. -/
theorem C5_no_output_requested_fails_before_allocation
    (cpuCount : Nat) (volume : Volume) (include_all : Bool)
    (devices : Option (List String)) :
    parallel_structure_tensor_analysis cpuCount volume .none .none .none
        include_all devices
      = ([], .error (.valueError "At least one output must be specified.")) := by
  rfl

/-- Claim C8: for a volume of shape `(X,Y,Z)`, requesting only the
tensor output as a fresh allocation yields an array of shape
`(6,X,Y,Z)`; requesting only eigenvalues as a fresh allocation yields
shape `(3,3,X,Y,Z)` when `include_all_eigenvalues` is true and
`(3,X,Y,Z)` otherwise. -/
theorem C8_fresh_allocation_shapes
    (cpuCount X Y Z : Nat) (vd d : Dty) :
    (parallel_structure_tensor_analysis cpuCount (.ndarray [X, Y, Z] vd)
        .none .none (.dtype d) false (Option.some ["cpu"])).2
      = .ok [.fresh [6, X, Y, Z] d]
    ∧ (parallel_structure_tensor_analysis cpuCount (.ndarray [X, Y, Z] vd)
        .none (.dtype d) .none true (Option.some ["cpu"])).2
      = .ok [.fresh [3, 3, X, Y, Z] d]
    ∧ (parallel_structure_tensor_analysis cpuCount (.ndarray [X, Y, Z] vd)
        .none (.dtype d) .none false (Option.some ["cpu"])).2
      = .ok [.fresh [3, X, Y, Z] d] := by
  refine ⟨?_, ?_, ?_⟩ <;>
    simp [parallel_structure_tensor_analysis, provisionOutput,
      shapeAssertHolds, optToList, isNoneReq, deviceAccepted_cpu,
      Volume.shape, OutArray.shape]

/-- Claim C1, counterexample: for the volume of shape `(4,4,4)` with
eigenvectors requested as a fresh `float32` allocation, the array
allocated and returned for eigenvectors has shape `(3,4,4,4)`, which is
not the claimed `(3,3,4,4,4)`. -/
theorem C1_counterexample_eigenvector_shape :
    (parallel_structure_tensor_analysis 1 (.ndarray [4, 4, 4] .float32)
        (.dtype .float32) .none .none false (Option.some ["cpu"]))
      = ([⟨[4, 4, 4], .float32⟩, ⟨[3, 4, 4, 4], .float32⟩],
         .ok [.fresh [3, 4, 4, 4] .float32])
    ∧ OutArray.shape (.fresh [3, 4, 4, 4] .float32) ≠ [3, 3, 4, 4, 4] := by
  exact ⟨rfl, by decide⟩

/-- Claim C1, amended: for every volume of shape `(X,Y,Z)`, when the
eigenvectors output is requested as an element type (fresh allocation),
the array allocated and returned for eigenvectors has shape
`(3,X,Y,Z)` — a single 3-component vector per voxel, not `(3,3,X,Y,Z)`
(line 135: `eigenvectors_shape = (3,) + volume.shape`). -/
theorem C1_fresh_eigenvector_shape
    (cpuCount X Y Z : Nat) (vd d : Dty) :
    parallel_structure_tensor_analysis cpuCount (.ndarray [X, Y, Z] vd)
        (.dtype d) .none .none false (Option.some ["cpu"])
      = ([⟨[X, Y, Z], vd⟩, ⟨[3, X, Y, Z], d⟩],
         .ok [.fresh [3, X, Y, Z] d]) := by
  simp [parallel_structure_tensor_analysis, provisionOutput,
    shapeAssertHolds, optToList, isNoneReq, deviceAccepted_cpu,
    Volume.shape, OutArray.shape, volumeAllocs]

/-- Claim C2, counterexample: omitting all three output parameters means
they take their defaults (`eigenvectors = np.float32`,
`eigenvalues = np.float32`, `structure_tensor = None`, lines 88-90), so
the eigenvector and eigenvalue outputs are NOT skipped: both are
freshly allocated and returned. -/
theorem C2_counterexample_defaults_allocate :
    parallel_structure_tensor_analysis 1 (.ndarray [4, 4, 4] .float32)
        defaultEigenvectors defaultEigenvalues defaultStructureTensor
        false (Option.some ["cpu"])
      = ([⟨[4, 4, 4], .float32⟩, ⟨[3, 4, 4, 4], .float32⟩,
          ⟨[3, 4, 4, 4], .float32⟩],
         .ok [.fresh [3, 4, 4, 4] .float32, .fresh [3, 4, 4, 4] .float32])
    ∧ defaultEigenvectors ≠ .none ∧ defaultEigenvalues ≠ .none := by
  exact ⟨rfl, by decide, by decide⟩

/-- Claim C2, amended: passing `None` explicitly for an output parameter
skips that output (it is not allocated and not returned); omission
skips only the structure tensor (whose default is `None`), while
omitted eigenvectors and eigenvalues default to fresh `float32`
allocations.  The four conjuncts show: all defaults; `None`
eigenvectors with the other defaults; `None` eigenvalues with the other
defaults; and `None` for both with only the tensor requested. -/
theorem C2_none_skips_output
    (cpuCount X Y Z : Nat) (vd d : Dty) :
    (parallel_structure_tensor_analysis cpuCount (.ndarray [X, Y, Z] vd)
        defaultEigenvectors defaultEigenvalues defaultStructureTensor
        false (Option.some ["cpu"])
      = ([⟨[X, Y, Z], vd⟩, ⟨[3, X, Y, Z], .float32⟩, ⟨[3, X, Y, Z], .float32⟩],
         .ok [.fresh [3, X, Y, Z] .float32, .fresh [3, X, Y, Z] .float32]))
    ∧ (parallel_structure_tensor_analysis cpuCount (.ndarray [X, Y, Z] vd)
        .none defaultEigenvalues defaultStructureTensor
        false (Option.some ["cpu"])
      = ([⟨[X, Y, Z], vd⟩, ⟨[3, X, Y, Z], .float32⟩],
         .ok [.fresh [3, X, Y, Z] .float32]))
    ∧ (parallel_structure_tensor_analysis cpuCount (.ndarray [X, Y, Z] vd)
        defaultEigenvectors .none defaultStructureTensor
        false (Option.some ["cpu"])
      = ([⟨[X, Y, Z], vd⟩, ⟨[3, X, Y, Z], .float32⟩],
         .ok [.fresh [3, X, Y, Z] .float32]))
    ∧ (parallel_structure_tensor_analysis cpuCount (.ndarray [X, Y, Z] vd)
        .none .none (.dtype d) false (Option.some ["cpu"])
      = ([⟨[X, Y, Z], vd⟩, ⟨[6, X, Y, Z], d⟩],
         .ok [.fresh [6, X, Y, Z] d])) := by
  refine ⟨?_, ?_, ?_, ?_⟩ <;>
    simp [parallel_structure_tensor_analysis, provisionOutput,
      shapeAssertHolds, optToList, isNoneReq, deviceAccepted_cpu,
      Volume.shape, OutArray.shape, volumeAllocs,
      defaultEigenvectors, defaultEigenvalues, defaultStructureTensor]

/-- Claim C3, counterexample: the device string `cuda:x` does not match
the pattern `cpu` / `cuda:<non-negative integer>`, yet the call accepts
it and proceeds (the code only tests `d.lower() == "cpu" or "cuda:" in
d.lower()`, line 233), so no `InvalidArgument` error is raised. -/
theorem C3_counterexample_loose_device_check :
    matchesDevicePattern "cuda:x" = false
    ∧ (parallel_structure_tensor_analysis 1 (.ndarray [4, 4, 4] .float32)
        (.dtype .float32) .none .none false (Option.some ["cuda:x"])).2
      = .ok [.fresh [3, 4, 4, 4] .float32] := by
  exact ⟨by decide, rfl⟩

/-- Claim C3, amended: a supplied devices list is validated before any
worker is spawned with the weaker test the code performs — an entry
passes when it lowercases to `cpu` or merely contains `cuda:` as a
substring.  If some entry fails that test the call raises a
`ValueError`; if all entries pass it the call is accepted.  Every entry
matching the specification's strict `cpu` / `cuda:<non-negative
integer>` pattern passes the code's test, so a fully pattern-matching
list is accepted, but the converse fails (for example `cuda:x`). -/
theorem C3_device_validation
    (cpuCount X Y Z : Nat) (vd : Dty) (ds : List String) :
    (∀ d ∈ ds, matchesDevicePattern d = true → deviceAccepted d = true)
    ∧ (¬ ds.all deviceAccepted = true →
        (parallel_structure_tensor_analysis cpuCount (.ndarray [X, Y, Z] vd)
            (.dtype .float32) .none .none false (Option.some ds)).2
          = .error (.valueError
              "Invalid devices. Should be a list of cpu or cuda:X, where X is the CUDA device number."))
    ∧ (ds.all deviceAccepted = true →
        (parallel_structure_tensor_analysis cpuCount (.ndarray [X, Y, Z] vd)
            (.dtype .float32) .none .none false (Option.some ds)).2
          = .ok [.fresh [3, X, Y, Z] .float32]) := by
  refine ⟨fun d _ h => deviceAccepted_of_matchesDevicePattern d h, ?_, ?_⟩ <;>
    intro h <;>
    simp [parallel_structure_tensor_analysis, provisionOutput,
      shapeAssertHolds, optToList, isNoneReq, Volume.shape,
      OutArray.shape, volumeAllocs, h]

/-- Claim C3, witness: a list with the invalid entry `gpu` is rejected
with a `ValueError`, and a list of entries passing the code's check
(`cpu`, `CUDA:1`) is accepted. -/
theorem C3_device_validation_witness :
    (parallel_structure_tensor_analysis 1 (.ndarray [4, 4, 4] .float32)
        (.dtype .float32) .none .none false (Option.some ["gpu"])).2
      = .error (.valueError
          "Invalid devices. Should be a list of cpu or cuda:X, where X is the CUDA device number.")
    ∧ (parallel_structure_tensor_analysis 1 (.ndarray [4, 4, 4] .float32)
        (.dtype .float32) .none .none false (Option.some ["cpu", "CUDA:1"])).2
      = .ok [.fresh [3, 4, 4, 4] .float32] := by
  exact ⟨(C3_device_validation 1 4 4 4 .float32 ["gpu"]).2.1 (by decide),
    (C3_device_validation 1 4 4 4 .float32 ["cpu", "CUDA:1"]).2.2 (by decide)⟩

/-- Claim C4, counterexample: a caller-supplied file-backed eigenvalue
array of declared shape `(3,3,4,4,4)` with `include_all_eigenvalues =
false` (canonical shape `(3,4,4,4)`) is not adopted as-is: the `assert`
at line 198 fails and the call raises an `AssertionError`, so the
supplied shape is not authoritative regardless of the canonical
shape. -/
theorem C4_counterexample_memmap_shape_assert :
    (parallel_structure_tensor_analysis 1 (.ndarray [4, 4, 4] .float32)
        .none (.memmap ⟨"vals.bin", [3, 3, 4, 4, 4], .float64, 0⟩) .none
        false (Option.some ["cpu"])).2
      = .error .assertionError := by
  rfl

/-- Claim C4, amended: a caller-supplied memmap is adopted with its own
declared shape and dtype and no fresh allocation is made for it (so a
freshly requested dtype can only take effect when no memmap is
supplied, the two being the same parameter).  The structure-tensor
memmap is adopted as-is whatever its shape; the eigenvector and
eigenvalue memmaps are adopted only when their declared shape equals
the canonical shape — otherwise the `assert` at line 163 resp. 198
raises an `AssertionError`. -/
theorem C4_memmap_adoption
    (cpuCount : Nat) (vol : Volume) (m mv : MemMap) (flag : Bool) :
    (parallel_structure_tensor_analysis cpuCount vol .none .none
        (.memmap m) flag (Option.some ["cpu"])
      = (volumeAllocs vol, .ok [.adopted m]))
    ∧ (m.shape = (if flag then 3 :: 3 :: vol.shape else 3 :: vol.shape) →
        parallel_structure_tensor_analysis cpuCount vol .none (.memmap m)
            .none flag (Option.some ["cpu"])
          = (volumeAllocs vol, .ok [.adopted m]))
    ∧ (m.shape ≠ (if flag then 3 :: 3 :: vol.shape else 3 :: vol.shape) →
        (parallel_structure_tensor_analysis cpuCount vol .none (.memmap m)
            .none flag (Option.some ["cpu"])).2
          = .error .assertionError)
    ∧ (mv.shape = 3 :: vol.shape →
        parallel_structure_tensor_analysis cpuCount vol (.memmap mv) .none
            .none flag (Option.some ["cpu"])
          = (volumeAllocs vol, .ok [.adopted mv]))
    ∧ (mv.shape ≠ 3 :: vol.shape →
        (parallel_structure_tensor_analysis cpuCount vol (.memmap mv) .none
            .none flag (Option.some ["cpu"])).2
          = .error .assertionError) := by
  refine ⟨?_, ?_, ?_, ?_, ?_⟩
  · simp [parallel_structure_tensor_analysis, provisionOutput,
      shapeAssertHolds, optToList, isNoneReq, deviceAccepted_cpu,
      OutArray.shape]
  · intro h
    simp [parallel_structure_tensor_analysis, provisionOutput,
      shapeAssertHolds, optToList, isNoneReq, deviceAccepted_cpu,
      OutArray.shape, h]
  · intro h
    replace h := Ne.symm h
    simp [parallel_structure_tensor_analysis, provisionOutput,
      shapeAssertHolds, optToList, isNoneReq, deviceAccepted_cpu,
      OutArray.shape, h]
  · intro h
    simp [parallel_structure_tensor_analysis, provisionOutput,
      shapeAssertHolds, optToList, isNoneReq, deviceAccepted_cpu,
      OutArray.shape, h]
  · intro h
    replace h := Ne.symm h
    simp [parallel_structure_tensor_analysis, provisionOutput,
      shapeAssertHolds, optToList, isNoneReq, deviceAccepted_cpu,
      OutArray.shape, h]

/-- Claim C4, witness: a memmap for eigenvalues whose declared shape
equals the canonical shape `(3,4,4,4)` is adopted as-is, shape and
dtype (`float64`) taken from the memmap, with no fresh allocation for
that output. -/
theorem C4_memmap_adoption_witness :
    parallel_structure_tensor_analysis 1 (.ndarray [4, 4, 4] .float32)
        .none (.memmap ⟨"vals.bin", [3, 4, 4, 4], .float64, 8⟩) .none
        false (Option.some ["cpu"])
      = ([⟨[4, 4, 4], .float32⟩],
         .ok [.adopted ⟨"vals.bin", [3, 4, 4, 4], .float64, 8⟩]) := by
  exact (C4_memmap_adoption 1 (.ndarray [4, 4, 4] .float32)
    ⟨"vals.bin", [3, 4, 4, 4], .float64, 8⟩
    ⟨"vecs.bin", [3, 4, 4, 4], .float32, 0⟩ false).2.1 (by decide)

/-- Claim C7: for every block for which eigenvalues are requested, the
block procedure writes the eigenvalue field reversed along the leading
axis (`lib.flip(val, axis=0)`, line 364, before `util.insert_block`,
line 367), and — the kernel returning ascending order — the written
values at any voxel are non-increasing along the leading axis, so
index 0 holds the largest value. -/
theorem C7_eigenvalues_flipped_nonincreasing
    (ds : DataSourcesModel) (len : Nat) (S vec val : Nat → Nat → Int)
    (hreq : ds.hasEigenvalues = true) (hasc : kernelAscending len val) :
    (WriteAction.values (flipAxis0 len val) ∈ doWorkWrites ds len S vec val)
    ∧ nonIncreasingAxis0 len (flipAxis0 len val) := by
  constructor
  · simp [doWorkWrites, hreq]
  · intro i j v hij hj
    exact hasc (len - 1 - j) (len - 1 - i) v (by omega) (by omega)

/-- Claim C7, witness: with eigenvalues requested and the ascending
kernel field sending leading index `i` to the constant value `i`, the
flipped field is among the block's writes and is non-increasing along
its leading axis of length 3. -/
theorem C7_eigenvalues_flipped_witness :
    (WriteAction.values (flipAxis0 3 (fun i _ => (i : Int))) ∈
      doWorkWrites ⟨false, false, true⟩ 3 (fun _ _ => 0) (fun _ _ => 0)
        (fun i _ => (i : Int)))
    ∧ nonIncreasingAxis0 3 (flipAxis0 3 (fun i _ => (i : Int))) := by
  exact C7_eigenvalues_flipped_nonincreasing ⟨false, false, true⟩ 3
    (fun _ _ => 0) (fun _ _ => 0) (fun i _ => (i : Int)) rfl
    (fun i j v hij hj => by simpa using Int.ofNat_le.mpr hij)

/-- Unfolding the collection loop over all completions: the counter ends
at the number of completions, the results arrive in completion order,
and with a callback supplied the calls list is
`[(1, bc), (2, bc), …, (n, bc)]`. -/
theorem collectCompletions_eq (hc : Bool) (bc : Nat) (cs : List Nat) :
    collectCompletions hc bc cs =
      ⟨cs.length, cs,
       if hc then (List.range cs.length).map (fun i => (i + 1, bc)) else []⟩ := by
  induction cs using List.reverseRecOn with
  | nil => cases hc <;> rfl
  | append_singleton cs c ih =>
      unfold collectCompletions at ih ⊢
      rw [List.foldl_append, ih]
      cases hc <;>
        simp [collectStep, List.range_succ]

/-- Claim C9: over `blockCount` blocks with a progress callback
supplied, the callback is invoked exactly `blockCount` times, once per
completion, the `k`-th invocation (0-based) carrying
`done = k + 1` — strictly increasing by 1 — and `total = blockCount`
on every call, whatever the arrival order of the completions. -/
theorem C9_progress_monotonicity
    (blockCount : Nat) (completions : List Nat)
    (h : completions.length = blockCount) :
    (collectCompletions true blockCount completions).calls
      = (List.range blockCount).map (fun i => (i + 1, blockCount))
    ∧ (collectCompletions true blockCount completions).calls.length
      = blockCount
    ∧ (∀ k, k < blockCount →
        (collectCompletions true blockCount completions).calls.get? k
          = Option.some (k + 1, blockCount)) := by
  rw [collectCompletions_eq, h]
  refine ⟨rfl, by simp, fun k hk => ?_⟩
  simp [List.getElem?_map, List.getElem?_range, hk]

/-- Claim C9, witness: collecting the out-of-order completions
`[2, 0, 1]` of a three-block run invokes the callback with
`(1,3), (2,3), (3,3)`. -/
theorem C9_progress_monotonicity_witness :
    (collectCompletions true 3 [2, 0, 1]).calls
      = (List.range 3).map (fun i => (i + 1, 3))
    ∧ (collectCompletions true 3 [2, 0, 1]).calls.length = 3
    ∧ (∀ k, k < 3 →
        (collectCompletions true 3 [2, 0, 1]).calls.get? k
          = Option.some (k + 1, 3)) := by
  exact C9_progress_monotonicity 3 [2, 0, 1] rfl

/-- The assembled output list (lines 271-280) has between one and three
entries whenever at least one output was requested. -/
theorem outputLength_bounds (s1 s2 s3 : List Nat)
    (rvec rval rst : OutputRequest)
    (h : ¬ [rvec, rval, rst].all isNoneReq = true) :
    1 ≤ (optToList (provisionOutput s3 rst).2
          ++ optToList (provisionOutput s1 rvec).2
          ++ optToList (provisionOutput s2 rval).2).length
    ∧ (optToList (provisionOutput s3 rst).2
          ++ optToList (provisionOutput s1 rvec).2
          ++ optToList (provisionOutput s2 rval).2).length ≤ 3 := by
  cases rvec <;> cases rval <;> cases rst <;>
    simp_all [optToList, provisionOutput, isNoneReq]

/-- The assembled output list has exactly one entry per requested
output. -/
theorem outputLength_eq_requestCount (s1 s2 s3 : List Nat)
    (rvec rval rst : OutputRequest) :
    (optToList (provisionOutput s3 rst).2
        ++ optToList (provisionOutput s1 rvec).2
        ++ optToList (provisionOutput s2 rval).2).length
      = requestCount [rst, rvec, rval] := by
  cases rvec <;> cases rval <;> cases rst <;> rfl

/-- Exhaustive case analysis of the entry point: the call either raises
one of its three errors (no output requested; a shape assert failed; an
invalid device list) or returns the assembled output list — tensor,
then eigenvectors, then eigenvalues — with at least one output
requested. -/
theorem psta_cases (c : Nat) (vol : Volume)
    (rvec rval rst : OutputRequest) (flag : Bool)
    (devices : Option (List String)) :
    (parallel_structure_tensor_analysis c vol rvec rval rst flag devices).2
        = .error (.valueError "At least one output must be specified.")
    ∨ (parallel_structure_tensor_analysis c vol rvec rval rst flag devices).2
        = .error .assertionError
    ∨ (parallel_structure_tensor_analysis c vol rvec rval rst flag devices).2
        = .error (.valueError
            "Invalid devices. Should be a list of cpu or cuda:X, where X is the CUDA device number.")
    ∨ ((parallel_structure_tensor_analysis c vol rvec rval rst flag devices).2
        = .ok (optToList (provisionOutput (6 :: vol.shape) rst).2
            ++ optToList (provisionOutput (3 :: vol.shape) rvec).2
            ++ optToList (provisionOutput
                  (if flag then 3 :: 3 :: vol.shape else 3 :: vol.shape) rval).2)
        ∧ ¬ [rvec, rval, rst].all isNoneReq = true) := by
  set_option maxRecDepth 4096 in
  cases flag <;> cases rvec <;> cases rval <;> cases rst <;>
      simp [parallel_structure_tensor_analysis, provisionOutput, isNoneReq,
        shapeAssertHolds, optToList, OutArray.shape] <;>
    (repeat' split) <;> simp_all

/-- Claim C6: whenever the call returns, it returns exactly as many
arrays as outputs were requested (between 1 and 3), in the fixed order
structure tensor, then eigenvectors, then eigenvalues, regardless of
the requested subset. -/
theorem C6_return_arity_and_order (c : Nat) (vol : Volume)
    (rvec rval rst : OutputRequest) (flag : Bool)
    (devices : Option (List String))
    (al : List AllocEvent) (out : List OutArray)
    (h : parallel_structure_tensor_analysis c vol rvec rval rst flag devices
          = (al, .ok out)) :
    out = optToList (provisionOutput (6 :: vol.shape) rst).2
        ++ optToList (provisionOutput (3 :: vol.shape) rvec).2
        ++ optToList (provisionOutput
              (if flag then 3 :: 3 :: vol.shape else 3 :: vol.shape) rval).2
    ∧ out.length = requestCount [rst, rvec, rval]
    ∧ 1 ≤ out.length ∧ out.length ≤ 3 := by
  have h2 : (parallel_structure_tensor_analysis c vol rvec rval rst flag
      devices).2 = .ok out := by rw [h]
  rcases psta_cases c vol rvec rval rst flag devices with hx | hx | hx | ⟨hx, hnotall⟩ <;>
    rw [hx] at h2
  · cases h2
  · cases h2
  · cases h2
  · injection h2 with h3
    subst h3
    refine ⟨rfl, outputLength_eq_requestCount _ _ _ _ _ _, ?_⟩
    exact outputLength_bounds _ _ _ _ _ _ hnotall

/-- Claim C6, witness: requesting eigenvalues (fresh `float32`) and the
tensor (fresh `float64`) but not eigenvectors returns exactly two
arrays, the tensor first and the eigenvalues second. -/
theorem C6_return_arity_witness :
    ([OutArray.fresh [6, 4, 4, 4] Dty.float64,
      OutArray.fresh [3, 4, 4, 4] Dty.float32]
      = optToList (provisionOutput (6 :: Volume.shape (.ndarray [4, 4, 4] .float32)) (.dtype .float64)).2
        ++ optToList (provisionOutput (3 :: Volume.shape (.ndarray [4, 4, 4] .float32)) .none).2
        ++ optToList (provisionOutput
              (if false then 3 :: 3 :: Volume.shape (.ndarray [4, 4, 4] .float32)
               else 3 :: Volume.shape (.ndarray [4, 4, 4] .float32)) (.dtype .float32)).2)
    ∧ ([OutArray.fresh [6, 4, 4, 4] Dty.float64,
        OutArray.fresh [3, 4, 4, 4] Dty.float32] : List OutArray).length
        = requestCount [.dtype .float64, .none, .dtype .float32]
    ∧ 1 ≤ ([OutArray.fresh [6, 4, 4, 4] Dty.float64,
            OutArray.fresh [3, 4, 4, 4] Dty.float32] : List OutArray).length
    ∧ ([OutArray.fresh [6, 4, 4, 4] Dty.float64,
        OutArray.fresh [3, 4, 4, 4] Dty.float32] : List OutArray).length ≤ 3 := by
  exact C6_return_arity_and_order 1 (.ndarray [4, 4, 4] .float32)
    .none (.dtype .float32) (.dtype .float64) false (Option.some ["cpu"])
    [⟨[4, 4, 4], .float32⟩, ⟨[3, 4, 4, 4], .float32⟩, ⟨[6, 4, 4, 4], .float64⟩]
    [.fresh [6, 4, 4, 4] .float64, .fresh [3, 4, 4, 4] .float32] rfl

/-- Claim C10: the final error branch of
`parallel_structure_tensor_analysis` (line 289, "No output generated.")
is unreachable — the at-least-one-output check at entry guarantees the
assembled output list is non-empty — and whenever the function returns
it returns between one and three arrays. -/
theorem C10_no_output_branch_unreachable (c : Nat) (vol : Volume)
    (rvec rval rst : OutputRequest) (flag : Bool)
    (devices : Option (List String)) :
    (parallel_structure_tensor_analysis c vol rvec rval rst flag devices).2
        ≠ .error (.valueError "No output generated.")
    ∧ ∀ al out,
        parallel_structure_tensor_analysis c vol rvec rval rst flag devices
          = (al, .ok out) →
        1 ≤ out.length ∧ out.length ≤ 3 := by
  constructor
  · rcases psta_cases c vol rvec rval rst flag devices with hx | hx | hx | ⟨hx, _⟩ <;>
      rw [hx] <;> simp
  · intro al out h
    have h2 : (parallel_structure_tensor_analysis c vol rvec rval rst flag
        devices).2 = .ok out := by rw [h]
    rcases psta_cases c vol rvec rval rst flag devices with hx | hx | hx | ⟨hx, hnotall⟩ <;>
      rw [hx] at h2
    · cases h2
    · cases h2
    · cases h2
    · injection h2 with h3
      subst h3
      exact outputLength_bounds _ _ _ _ _ _ hnotall

/-- Claim C10, witness: the defaults call on a `(4,4,4)` volume does not
hit the "No output generated" branch and returns its two arrays. -/
theorem C10_no_output_branch_witness :
    (parallel_structure_tensor_analysis 1 (.ndarray [4, 4, 4] .float32)
        defaultEigenvectors defaultEigenvalues defaultStructureTensor
        false (Option.some ["cpu"])).2
      ≠ .error (.valueError "No output generated.")
    ∧ (1 ≤ ([OutArray.fresh [3, 4, 4, 4] Dty.float32,
             OutArray.fresh [3, 4, 4, 4] Dty.float32] : List OutArray).length
       ∧ ([OutArray.fresh [3, 4, 4, 4] Dty.float32,
           OutArray.fresh [3, 4, 4, 4] Dty.float32] : List OutArray).length ≤ 3) := by
  exact ⟨(C10_no_output_branch_unreachable 1 (.ndarray [4, 4, 4] .float32)
      defaultEigenvectors defaultEigenvalues defaultStructureTensor
      false (Option.some ["cpu"])).1,
    (C10_no_output_branch_unreachable 1 (.ndarray [4, 4, 4] .float32)
      defaultEigenvectors defaultEigenvalues defaultStructureTensor
      false (Option.some ["cpu"])).2
      [⟨[4, 4, 4], .float32⟩, ⟨[3, 4, 4, 4], .float32⟩, ⟨[3, 4, 4, 4], .float32⟩]
      [.fresh [3, 4, 4, 4] .float32, .fresh [3, 4, 4, 4] .float32] rfl⟩

end StructureTensor
